import Mathlib

/-!
Shallow embedding of the incremental map-state reconciliation engine of the
`pbiviz-leaflet-example` Power BI visual (source of truth: `src/visual.ts`,
class `Visual`, chiefly the `performUpdate` method and the helper color
classifiers `getColor` / `getChoro`).

Modelling conventions:
* A table cell is a JavaScript primitive: a number, a string, or `null`
  (`undefined` for an absent cell behaves like `null` in every coercion the
  claims touch, so both are folded into `CellValue.null`).
* JavaScript numbers are modelled as `Int`; every numeric constant appearing
  in the source (breakpoints, weights, FIPS codes) is integral, and no claim
  under study depends on fractional values.
* The DOM, the Leaflet map object and the Esri feature service are external
  collaborators; only the state the reconciler itself owns and mutates is
  modelled: the previously processed table, the retry counter, the cluster
  marker set, the per-county applied fill colors, the remote ("high crash
  corridors") layer handle and its attachment, the layer-control overlay
  entries, and the stored `selectedMetric` setting.
-/

namespace CrashMap

/-- A JavaScript primitive value held in a Power BI table cell.
`null` covers both `null` and `undefined` (they coincide under the
`?? ""`, unary `+`, and `?.` coercions used by `performUpdate`). -/
inductive CellValue where
  | num (v : Int)
  | str (s : String)
  | null
  deriving DecidableEq, Repr

/-- JS `String(x ?? "")`: numbers print in decimal, strings pass through,
`null`/`undefined` become the empty string (source line 274). -/
def cellToString : CellValue → String
  | CellValue.num v => toString v
  | CellValue.str s => s
  | CellValue.null => ""

/-- Strip leading and trailing whitespace from a character list. -/
def trimChars (l : List Char) : List Char :=
  ((l.dropWhile Char.isWhitespace).reverse.dropWhile Char.isWhitespace).reverse

/-- JS `s.trim()`: strip leading and trailing whitespace. -/
def jsTrim (s : String) : String := String.mk (trimChars s.data)

/-- JS `s.toLowerCase()` (ASCII fragment). -/
def jsToLower (s : String) : String := String.mk (s.data.map Char.toLower)

/-- Parse a run of decimal digits into a number; `none` when a non-digit
occurs.  The accumulator is `none` until the first digit is seen, so an
empty digit run also yields `none`. -/
def parseDigits : List Char → Option Nat → Option Nat
  | [], acc => acc
  | c :: cs, acc =>
    if c.isDigit then
      parseDigits cs (some ((acc.getD 0) * 10 + (c.toNat - 48)))
    else none

/-- Parse an optionally minus-signed integer literal; `none` models `NaN`.
(Integral fragment of the JS `Number(string)` coercion.) -/
def strToInt? (s : String) : Option Int :=
  match s.data with
  | [] => none
  | c :: cs =>
    if c = Char.ofNat 45 then (parseDigits cs none).map (fun n => -(n : Int))
    else (parseDigits (c :: cs) none).map (fun n => (n : Int))

/-- JS unary `+` coercion to a number; `none` stands for `NaN`.
`+null = 0`, `+"" = 0` (and whitespace-only strings), a numeric string
parses, any other string is `NaN` (integral fragment of the JS semantics). -/
def toNumber : CellValue → Option Int
  | CellValue.num v => some v
  | CellValue.null => some 0
  | CellValue.str s => if jsTrim s = "" then some 0 else strToInt? (jsTrim s)

/-- A table row: the ordered tuple of cell values (source `dv.table.rows`). -/
def Row : Type := List CellValue

instance : DecidableEq Row := inferInstanceAs (DecidableEq (List CellValue))

/-- Indexing a row, JS style: out-of-range gives `undefined`, modelled as
`CellValue.null`. -/
def rowCell (r : Row) (i : Nat) : CellValue :=
  List.getD r i CellValue.null

/-- JS `+r[crashIdx] || 0` (source line 275/350): coerce the weight cell to a
number, `NaN` falling back to `0`. -/
def rowWeight (crashIdx : Nat) (r : Row) : Int :=
  (toNumber (rowCell r crashIdx)).getD 0

/-- JS `String(r[fipsIdx] ?? "")` (source line 274): the aggregation key of a
row. Note: no zero-padding here. -/
def rowKey (fipsIdx : Nat) (r : Row) : String :=
  cellToString (rowCell r fipsIdx)

/-- JS `s.padStart(5, "0")` (source lines 315/351). -/
def padStart5 (s : String) : String :=
  String.mk (List.replicate (5 - s.length) '0') ++ s

/-! ## Query Builder (source lines 374-400) -/

/-- The fixed allow-list `VALID_ROUTES` (source lines 376-378). -/
def VALID_ROUTES : List String := ["I-26", "I-40", "I-77", "I-85", "I-95"]

/-- One step of `raw.replace(/\s+/g, "-")`: walk the characters, emitting a
single dash for each maximal run of whitespace.  The flag records whether
the previous character was part of a whitespace run. -/
def collapseWSAux : Bool → List Char → List Char
  | _, [] => []
  | prevWS, c :: cs =>
    if c.isWhitespace then
      if prevWS then collapseWSAux true cs
      else Char.ofNat 45 :: collapseWSAux true cs
    else c :: collapseWSAux false cs

/-- Normalization `raw.trim().replace(/\s+/g, "-")` (source line 385): trim, then replace
every whitespace run with a single dash. -/
def normalizeRoute (raw : String) : String :=
  String.mk (collapseWSAux false (jsTrim raw).data)

/-- The survivors `Array.from(selectedInterstates).map(...).filter(...)`
(source lines 382-388). -/
def safeInterstates (sel : List String) : List String :=
  (sel.map normalizeRoute).filter (fun norm => norm ∈ VALID_ROUTES)

/-- The single-quote character, used when quoting route tokens. -/
def quoteStr : String := String.singleton (Char.ofNat 39)

/-- The predicate `safeInterstates.map(quote).join(", ")` wrapped in
`RouteName IN (...)` (source lines 393-396). -/
def routeInPredicate (safe : List String) : String :=
  "RouteName IN (" ++
    String.intercalate ", " (safe.map (fun r => quoteStr ++ r ++ quoteStr)) ++ ")"

/-- The compiled `where` predicate (source lines 391-400): the IN-predicate
over the surviving tokens, or the always-false `1=0` when none survive. -/
def buildWhere (sel : List String) : String :=
  let safe := safeInterstates sel
  if safe.length > 0 then routeInPredicate safe else "1=0"

/-! ## Classification / color mapping (source lines 470-494) -/

/-- The breakpoint classifier shape shared by `getColor` and `getChoro`:
`val <= b[0]` gives class 0 (transparent), `val <= b[i]` gives class `i`,
anything beyond the last breakpoint gives class 7. -/
def classify (b : List Int) (val : Int) : Nat :=
  if val ≤ List.getD b 0 0 then 0
  else if val ≤ List.getD b 1 0 then 1
  else if val ≤ List.getD b 2 0 then 2
  else if val ≤ List.getD b 3 0 then 3
  else if val ≤ List.getD b 4 0 then 4
  else if val ≤ List.getD b 5 0 then 5
  else if val ≤ List.getD b 6 0 then 6
  else 7

/-- The array `const breaks = [0, 10, 50, 100, 200, 500, 1000]` (471/485),
shared by both ramps. -/
def colorBreaks : List Int := [0, 10, 50, 100, 200, 500, 1000]

/-- The marker/cluster color ramp of `getColor`, in class order. -/
def colorPalette : List String :=
  ["rgba(0,0,0,0)", "#ffffcc", "#ffeda0", "#feb24c", "#fd8d3c", "#f03b20",
   "#bd0026", "#800026"]

/-- The choropleth color ramp of `getChoro`, in class order. -/
def choroPalette : List String :=
  ["rgba(0,0,0,0)", "#4575b4", "#74add1", "#abd9e9", "#fdae61", "#f46d43",
   "#d73027", "#a50026"]

/-- Function `getColor` (source lines 470-480): the nested ternary chain over
`colorBreaks`. -/
def getColor (val : Int) : String :=
  if val ≤ List.getD colorBreaks 0 0 then "rgba(0,0,0,0)"
  else if val ≤ List.getD colorBreaks 1 0 then "#ffffcc"
  else if val ≤ List.getD colorBreaks 2 0 then "#ffeda0"
  else if val ≤ List.getD colorBreaks 3 0 then "#feb24c"
  else if val ≤ List.getD colorBreaks 4 0 then "#fd8d3c"
  else if val ≤ List.getD colorBreaks 5 0 then "#f03b20"
  else if val ≤ List.getD colorBreaks 6 0 then "#bd0026"
  else "#800026"

/-- Function `getChoro` (source lines 484-494): same chain, choropleth palette. -/
def getChoro (val : Int) : String :=
  if val ≤ List.getD colorBreaks 0 0 then "rgba(0,0,0,0)"
  else if val ≤ List.getD colorBreaks 1 0 then "#4575b4"
  else if val ≤ List.getD colorBreaks 2 0 then "#74add1"
  else if val ≤ List.getD colorBreaks 3 0 then "#abd9e9"
  else if val ≤ List.getD colorBreaks 4 0 then "#fdae61"
  else if val ≤ List.getD colorBreaks 5 0 then "#f46d43"
  else if val ≤ List.getD colorBreaks 6 0 then "#d73027"
  else "#a50026"

/-! ## Aggregation Engine (source lines 270-277) -/

/-- One step of the aggregation loop, as a finitely supported total map:
`crashByFIPS[f] = (crashByFIPS[f] || 0) + v` with `f = String(r[fipsIdx] ?? "")`
and `v = +r[crashIdx] || 0` (source lines 273-277).  The record is only ever
read through `crashByFIPS[f] || 0`, so a total function defaulting to `0` is
an exact model. -/
def aggStep (fipsIdx crashIdx : Nat) (acc : String → Int) (r : Row) :
    String → Int :=
  fun k => if k = rowKey fipsIdx r then acc k + rowWeight crashIdx r else acc k

/-- The record `crashByFIPS`: fold the aggregation step over the rows starting from the
empty record. -/
def crashByFIPS (fipsIdx crashIdx : Nat) (rows : List Row) : String → Int :=
  rows.foldl (aggStep fipsIdx crashIdx) (fun _ => 0)

/-! ## Category selection (source lines 227-265) -/

/-- A basic ("column IN values") filter descriptor from `options.jsonFilters`:
the `column` of each target (`none` when the target carries no column
property) and the filter's values. -/
structure BasicFilter where
  targets : List (Option String)
  values : List CellValue
  deriving DecidableEq, Repr

/-- A host-supplied filter: either a basic filter or some other filter type
(skipped by the loop at source line 236). -/
inductive PBIFilter where
  | basic (f : BasicFilter)
  | other
  deriving DecidableEq, Repr

/-- JS `Set.add` on an insertion-ordered string set. -/
def addToSet (s : List String) (x : String) : List String :=
  if x ∈ s then s else s ++ [x]

/-- Collect `String(val).trim()` for the non-null values of one basic filter,
for each of its targets whose column name lowercases to `"interstate"`
(source lines 240-253). -/
def basicFilterAdd (acc : List String) (f : BasicFilter) : List String :=
  f.targets.foldl
    (fun acc target =>
      match target with
      | some col =>
        if jsToLower col = "interstate" then
          f.values.foldl
            (fun acc v =>
              match v with
              | CellValue.null => acc
              | v => addToSet acc (jsTrim (cellToString v)))
            acc
        else acc
      | none => acc)
    acc

/-- The interstate values contributed by the host's filters
(source lines 231-255). -/
def filtersInterstates (filters : List PBIFilter) : List String :=
  filters.foldl
    (fun acc fl =>
      match fl with
      | PBIFilter.basic f => basicFilterAdd acc f
      | PBIFilter.other => acc)
    []

/-- Fallback `row[interstateIdx]?.toString()?.trim()` followed by the truthiness test
`if (val)` (source lines 261-263): the trimmed cell text, added unless empty
(a null/undefined cell also yields the empty string and is skipped, exactly
as the optional chain leaves `val` undefined there). -/
def rowFallbackAdd (interstateIdx : Nat) (acc : List String) (r : Row) :
    List String :=
  let val := jsTrim (cellToString (rowCell r interstateIdx))
  if val = "" then acc else addToSet acc val

/-- The selection `selectedInterstates` (source lines 231-265): the filter-sourced set,
falling back to the distinct non-empty trimmed row values when the filters
yielded nothing and the interstate role is assigned
(`selectedInterstates.size === 0 && interstateIdx >= 0`). -/
def selectedInterstates (filters : List PBIFilter) (rows : List Row)
    (interstateIdx? : Option Nat) : List String :=
  let sel := filtersInterstates filters
  match interstateIdx? with
  | some idx => if sel = [] then rows.foldl (rowFallbackAdd idx) sel else sel
  | none => sel

/-! ## Marker building (source lines 343-357) -/

/-- The data attached to one PruneCluster marker: position, weight value and
the zero-padded FIPS key (source lines 347-356). -/
structure Marker where
  lat : Int
  lon : Int
  value : Int
  fips : String
  deriving DecidableEq, Repr

/-- Rebuild the cluster markers from the row batch: rows whose latitude or
longitude coerces to `NaN` are skipped; the marker carries
`+r[crashIdx] || 0` and `String(r[fipsIdx] ?? "").padStart(5, "0")`. -/
def buildMarkers (rows : List Row) (latIdx lonIdx crashIdx fipsIdx : Nat) :
    List Marker :=
  rows.filterMap (fun r =>
    match toNumber (rowCell r latIdx), toNumber (rowCell r lonIdx) with
    | some lat, some lon =>
      some { lat := lat, lon := lon,
             value := rowWeight crashIdx r,
             fips := padStart5 (rowKey fipsIdx r) }
    | _, _ => none)

/-! ## The reconciliation state machine (`performUpdate`, source lines 189-460) -/

/-- A column descriptor: which semantic roles the column carries
(`c.roles?.y`, `c.roles?.x`, `c.roles?.crashWeight`, `c.roles?.countyFIPS`,
`c.roles?.interstate`, source lines 207-211). -/
structure ColumnDesc where
  roleY : Bool
  roleX : Bool
  roleCrashWeight : Bool
  roleCountyFIPS : Bool
  roleInterstate : Bool
  deriving DecidableEq, Repr

/-- Table `dv.table`: the column descriptors and the rows.  `fast-deep-equal`
structural equality on this pure data is Lean equality. -/
structure DataTable where
  columns : List ColumnDesc
  rows : List Row
  deriving DecidableEq

/-- One invocation's input: `options.dataViews[0].table` (absent when the
host sent no table), `dv.metadata.objects?.dataSelector?.selectedMetric`,
and `options.jsonFilters`.  The viewport feeds only `resizeMap` (pure DOM
work) and is not modelled. -/
structure UpdateInput where
  table? : Option DataTable
  selectedMetricObj : Option String
  jsonFilters : List PBIFilter
  deriving DecidableEq

/-- Observable side effects of one `performUpdate` invocation:
whether the layer-mutation pass (choropleth restyle + marker rebuild +
remote-layer replace) ran, whether a 500 ms retry was scheduled via
`setTimeout`, and which diagnostics were logged (the `console.warn` retry
notice, the `console.error` exhaustion notice). -/
structure Effects where
  mutationPasses : Nat
  retryScheduled : Bool
  warnLogged : Bool
  errorLogged : Bool
  deriving DecidableEq, Repr

/-- No observable effect. -/
def noEffects : Effects :=
  { mutationPasses := 0, retryScheduled := false,
    warnLogged := false, errorLogged := false }

/-- The mutable fields of the `Visual` instance that `performUpdate` touches,
plus the map/layer-control state it drives.  `countyFips` is the fixed key
set of `countyLayers` built once from the reference GeoJSON; `countyFill` is
the last-applied fill color per county; `attachedRemote` lists the ids of
remote feature layers currently on the map; `overlayEntries` lists the
layer-control overlay names in order. -/
structure VisualState where
  previousTableData : Option DataTable
  retryCount : Nat
  selectedMetric : String
  countyFips : List String
  countyFill : List (String × String)
  markers : List Marker
  hccsLayer : Option Nat
  hccsWhere : Option String
  attachedRemote : List Nat
  nextLayerId : Nat
  hccsLayerAdded : Bool
  overlayEntries : List String
  deriving DecidableEq

/-- The overlay entries the constructor registers (source lines 171-174),
also used when the layer control is torn down and rebuilt
(source lines 366-369). -/
def baseOverlays : List String := ["Incidents", "Counties"]

/-- The state after the constructor ran, given the county FIPS keys of the
reference GeoJSON (source lines 66-178). -/
def initialState (countyFips : List String) : VisualState :=
  { previousTableData := none
    retryCount := 0
    selectedMetric := "crashes"
    countyFips := countyFips
    countyFill := []
    markers := []
    hccsLayer := none
    hccsWhere := none
    attachedRemote := []
    nextLayerId := 0
    hccsLayerAdded := false
    overlayEntries := baseOverlays }

/-- Setting `(objs?.dataSelector?.selectedMetric as ...) || "crashes"`
(source lines 200-202): a missing or falsy (empty) setting falls back to
`"crashes"`. -/
def resolveMetric : Option String → String
  | some s => if s = "" then "crashes" else s
  | none => "crashes"

/-- The layer-mutation pass (source lines 270-458), reached once all role
indices are resolved and the row batch is non-empty: aggregate per-county
totals and restyle the choropleth, rebuild the cluster markers, then replace
the remote high-crash-corridors layer (detach the attached instance, tear
down and rebuild the layer control when the overlay entry existed, attach a
fresh instance parameterized by the compiled `where` predicate, and register
the overlay entry exactly when the `hccsLayerAdded` flag is down). -/
def fullPass (s : VisualState) (rows : List Row) (sel : List String)
    (latIdx lonIdx crashIdx fipsIdx : Nat) : VisualState × Effects :=
  let agg := crashByFIPS fipsIdx crashIdx rows
  let s1 := { s with
    countyFill := s.countyFips.map (fun f => (f, getColor (agg f)))
    markers := buildMarkers rows latIdx lonIdx crashIdx fipsIdx }
  let s2 :=
    match s1.hccsLayer with
    | some id =>
      if id ∈ s1.attachedRemote then
        let sR := { s1 with attachedRemote := s1.attachedRemote.erase id }
        if sR.hccsLayerAdded then
          { sR with overlayEntries := baseOverlays, hccsLayerAdded := false }
        else sR
      else s1
    | none => s1
  let whereClause := buildWhere sel
  let newId := s2.nextLayerId
  let s3 := { s2 with
    hccsLayer := some newId
    hccsWhere := some whereClause
    attachedRemote := s2.attachedRemote ++ [newId]
    nextLayerId := newId + 1 }
  let s4 :=
    if s3.hccsLayerAdded then s3
    else { s3 with
      overlayEntries := s3.overlayEntries ++ ["High Crash Corridors"]
      hccsLayerAdded := true }
  (s4, { noEffects with mutationPasses := 1 })

/-- The body of `performUpdate` after the change-suppression check
(source lines 204-458): resolve the role indices with `findIndex`; when the
interstate role is unassigned, bump the retry counter and schedule a 500 ms
re-attempt while fewer than 5 retries were used, else log the exhaustion
error (source lines 214-223); otherwise reset the counter, read the
selection, and — when the remaining role indices resolve and rows exist —
run the layer-mutation pass. -/
def performCore (s : VisualState) (t : DataTable)
    (filters : List PBIFilter) : VisualState × Effects :=
  let rows := t.rows
  let cols := t.columns
  match cols.findIdx? (fun c => c.roleInterstate) with
  | none =>
    if s.retryCount < 5 then
      ({ s with retryCount := s.retryCount + 1 },
       { noEffects with retryScheduled := true, warnLogged := true })
    else
      (s, { noEffects with errorLogged := true })
  | some interstateIdx =>
    let s0 := { s with retryCount := 0 }
    let sel := selectedInterstates filters rows (some interstateIdx)
    match cols.findIdx? (fun c => c.roleY), cols.findIdx? (fun c => c.roleX),
        cols.findIdx? (fun c => c.roleCrashWeight),
        cols.findIdx? (fun c => c.roleCountyFIPS) with
    | some latIdx, some lonIdx, some crashIdx, some fipsIdx =>
      if rows = [] then (s0, noEffects)
      else fullPass s0 rows sel latIdx lonIdx crashIdx fipsIdx
    | _, _, _, _ => (s0, noEffects)

/-- Method `performUpdate` (source lines 189-460): bail out when no table arrived;
short-circuit when the previously processed table deep-equals the new one
(source line 194); otherwise record the table (source line 195), store the
resolved metric setting (source lines 200-202), and run the core. -/
def performUpdate (s : VisualState) (inp : UpdateInput) :
    VisualState × Effects :=
  match inp.table? with
  | none => (s, noEffects)
  | some t =>
    if s.previousTableData = some t then (s, noEffects)
    else
      let s1 := { s with
        previousTableData := some t
        selectedMetric := resolveMetric inp.selectedMetricObj }
      performCore s1 t inp.jsonFilters

/-- The remote-layer / layer-control invariant: the layer control carries
the remote overlay entry exactly when the `hccsLayerAdded` flag is up, at
most one remote feature layer is attached to the map, and any attached
remote layer is the one currently referenced by the `hccsLayer` field. -/
def RemoteInv (s : VisualState) : Prop :=
  s.overlayEntries.count "High Crash Corridors"
      = (if s.hccsLayerAdded then 1 else 0)
  ∧ s.attachedRemote.length ≤ 1
  ∧ ∀ id ∈ s.attachedRemote, s.hccsLayer = some id

/-- A sample table carrying all five role columns and one row, used to
exercise a complete reconciliation cycle. -/
def c5Table : DataTable :=
  { columns :=
      [{ roleY := true, roleX := false, roleCrashWeight := false,
         roleCountyFIPS := false, roleInterstate := false },
       { roleY := false, roleX := true, roleCrashWeight := false,
         roleCountyFIPS := false, roleInterstate := false },
       { roleY := false, roleX := false, roleCrashWeight := true,
         roleCountyFIPS := false, roleInterstate := false },
       { roleY := false, roleX := false, roleCrashWeight := false,
         roleCountyFIPS := true, roleInterstate := false },
       { roleY := false, roleX := false, roleCrashWeight := false,
         roleCountyFIPS := false, roleInterstate := true }]
    rows := [[CellValue.num 35, CellValue.num (-79), CellValue.num 120,
              CellValue.num 37063, CellValue.str "I-40"]] }

/-- An update invocation carrying `c5Table`. -/
def c5Input : UpdateInput :=
  { table? := some c5Table, selectedMetricObj := none, jsonFilters := [] }

/-- A sample table whose columns never carry the interstate role (the
category-filter role stays unassigned), used to exercise the retry path. -/
def c6Table : DataTable :=
  { columns :=
      [{ roleY := true, roleX := false, roleCrashWeight := false,
         roleCountyFIPS := false, roleInterstate := false },
       { roleY := false, roleX := true, roleCrashWeight := false,
         roleCountyFIPS := false, roleInterstate := false },
       { roleY := false, roleX := false, roleCrashWeight := true,
         roleCountyFIPS := false, roleInterstate := false },
       { roleY := false, roleX := false, roleCrashWeight := false,
         roleCountyFIPS := true, roleInterstate := false }]
    rows := [[CellValue.num 35, CellValue.num (-79), CellValue.num 120,
              CellValue.num 37063]] }

/-- An update invocation carrying `c6Table`. -/
def c6Input : UpdateInput :=
  { table? := some c6Table, selectedMetricObj := none, jsonFilters := [] }

/-! ## Aggregation lemmas -/

/-- Unfolding the aggregation fold at one key: the accumulator plus the sum
of the weights of the rows whose key matches. -/
lemma foldl_aggStep_apply (fipsIdx crashIdx : Nat) :
    ∀ (rows : List Row) (acc : String → Int) (k : String),
      List.foldl (aggStep fipsIdx crashIdx) acc rows k
        = acc k + ((rows.filter (fun r => rowKey fipsIdx r = k)).map
            (rowWeight crashIdx)).sum := by
  intro rows
  induction rows with
  | nil => intro acc k; simp
  | cons r rs ih =>
    intro acc k
    rw [List.foldl_cons, ih]
    by_cases h : rowKey fipsIdx r = k
    · rw [List.filter_cons_of_pos (by simpa using h)]
      simp only [aggStep, List.map_cons, List.sum_cons]
      rw [if_pos h.symm, add_assoc]
    · rw [List.filter_cons_of_neg (by simpa using h)]
      simp only [aggStep]
      rw [if_neg (fun hk => h hk.symm)]

/-- `crashByFIPS` computes, at every key, the sum of the coerced weights of
the rows whose stringified key equals it. -/
lemma crashByFIPS_eq_sum (fipsIdx crashIdx : Nat) (rows : List Row)
    (k : String) :
    crashByFIPS fipsIdx crashIdx rows k
      = ((rows.filter (fun r => rowKey fipsIdx r = k)).map
          (rowWeight crashIdx)).sum := by
  unfold crashByFIPS
  rw [foldl_aggStep_apply]
  simp

/-! ## C1 -/

/-- C1: every token surviving into the compiled remote-query predicate is
the normalization (trim, whitespace runs collapsed to one dash) of some
selected candidate and is a case-sensitive member of the fixed allow-list
`VALID_ROUTES`; with survivors the predicate is the `RouteName IN (...)`
form over exactly those tokens, and with zero survivors it is the
always-false `1=0`. -/
theorem C1_query_builder_safe :
    ∀ sel : List String,
      (∀ tok ∈ safeInterstates sel,
          tok ∈ VALID_ROUTES ∧ ∃ raw ∈ sel, tok = normalizeRoute raw)
      ∧ (safeInterstates sel = [] → buildWhere sel = "1=0")
      ∧ (safeInterstates sel ≠ [] →
          buildWhere sel = routeInPredicate (safeInterstates sel)) := by
  intro sel
  refine ⟨?_, ?_, ?_⟩
  · intro tok htok
    unfold safeInterstates at htok
    rw [List.mem_filter] at htok
    obtain ⟨hmem, hval⟩ := htok
    refine ⟨by simpa using hval, ?_⟩
    rw [List.mem_map] at hmem
    obtain ⟨raw, hraw, hr⟩ := hmem
    exact ⟨raw, hraw, hr.symm⟩
  · intro h
    unfold buildWhere
    rw [h]
    rfl
  · intro h
    unfold buildWhere
    rw [if_pos (by simpa using List.length_pos.mpr h)]

/-- C1 witness: the spec's example selection
`{"I-40", "DROP TABLE", " i-40 "}` has a nonempty survivor list, and the
compiled predicate is the IN-form over exactly the survivors. -/
theorem C1_query_builder_safe_witness :
    safeInterstates ["I-40", "DROP TABLE", " i-40 "] ≠ []
    ∧ buildWhere ["I-40", "DROP TABLE", " i-40 "]
        = routeInPredicate (safeInterstates ["I-40", "DROP TABLE", " i-40 "]) :=
  ⟨by decide,
   (C1_query_builder_safe ["I-40", "DROP TABLE", " i-40 "]).2.2 (by decide)⟩

/-! ## C2 -/

/-- C2 counterexample: with the breakpoint sequence
`[0,50,100,500,1000,5000,10000]`, the input `10000` satisfies
`value <= b[6]` and therefore lands in class 6, not in the highest class 7
that the claim assigns it. -/
theorem C2_boundary_counterexample :
    classify [0, 50, 100, 500, 1000, 5000, 10000] 10000 ≠ 7
    ∧ classify [0, 50, 100, 500, 1000, 5000, 10000] 10000 = 6 := by decide

/-- C2 (amended): the classifier is total — every input lands in one of the
8 classes 0..7 (class 0 transparent, class 7 past the last breakpoint) —
and for the breakpoints `[0,50,100,500,1000,5000,10000]` the inputs
`0, 50, 51, 10000, 10001` land in classes `0 (transparent), 1, 2, 6, 7`
(each boundary inclusive on the lower class); both source color ramps are
exactly palette lookups of this one classifier at the source's breakpoints. -/
theorem C2_classification_total :
    (∀ (b : List Int) (v : Int), classify b v ≤ 7)
    ∧ classify [0, 50, 100, 500, 1000, 5000, 10000] 0 = 0
    ∧ classify [0, 50, 100, 500, 1000, 5000, 10000] 50 = 1
    ∧ classify [0, 50, 100, 500, 1000, 5000, 10000] 51 = 2
    ∧ classify [0, 50, 100, 500, 1000, 5000, 10000] 10000 = 6
    ∧ classify [0, 50, 100, 500, 1000, 5000, 10000] 10001 = 7
    ∧ (∀ v : Int,
        getColor v = List.getD colorPalette (classify colorBreaks v) ""
        ∧ getChoro v = List.getD choroPalette (classify colorBreaks v) "") := by
  refine ⟨?_, by decide, by decide, by decide, by decide, by decide, ?_⟩
  · intro b v
    unfold classify
    split_ifs <;> decide
  · intro v
    constructor
    · unfold getColor classify
      split_ifs <;> rfl
    · unfold getChoro classify
      split_ifs <;> rfl

/-! ## C3 -/

/-- C3 counterexample: a row whose region key cell is `null` (missing) is
not excluded from aggregation — `String(r[fipsIdx] ?? "")` maps the missing
key to the empty string and the row's weight is accumulated under the key
`""`. -/
theorem C3_missing_key_counterexample :
    rowKey 0 [CellValue.null, CellValue.num 5] = ""
    ∧ crashByFIPS 0 1 [[CellValue.null, CellValue.num 5]] "" = 5 := by decide

/-- C3 (amended): each row's weight is coerced with `+v || 0` (non-numeric
contributes 0), each row's region key is coerced with `String(key ?? "")`
(a missing key becomes the empty string — the row is aggregated under `""`,
not excluded), and duplicates are summed: `RegionTotal[k]` is the sum of the
coerced weights of all rows whose coerced key equals `k`. -/
theorem C3_aggregation_characterization :
    ∀ (fipsIdx crashIdx : Nat) (rows : List Row) (k : String),
      crashByFIPS fipsIdx crashIdx rows k
        = ((rows.filter (fun r => rowKey fipsIdx r = k)).map
            (rowWeight crashIdx)).sum :=
  crashByFIPS_eq_sum

/-! ## C4 -/

/-- C4: aggregation is order-independent — permuting the row batch leaves
every `crashByFIPS` entry unchanged. -/
theorem C4_aggregation_order_independent :
    ∀ (fipsIdx crashIdx : Nat) (rows1 rows2 : List Row),
      rows1.Perm rows2 →
      ∀ k : String,
        crashByFIPS fipsIdx crashIdx rows1 k
          = crashByFIPS fipsIdx crashIdx rows2 k := by
  intro fipsIdx crashIdx rows1 rows2 h k
  rw [crashByFIPS_eq_sum, crashByFIPS_eq_sum]
  exact List.Perm.sum_eq ((h.filter _).map _)

/-- C4 witness: swapping two concrete rows leaves the total at `"37063"`
unchanged. -/
theorem C4_aggregation_order_independent_witness :
    ([[CellValue.str "37063", CellValue.num 2],
      [CellValue.str "37183", CellValue.num 3]] : List Row).Perm
      [[CellValue.str "37183", CellValue.num 3],
       [CellValue.str "37063", CellValue.num 2]]
    ∧ crashByFIPS 0 1
        [[CellValue.str "37063", CellValue.num 2],
         [CellValue.str "37183", CellValue.num 3]] "37063"
      = crashByFIPS 0 1
          [[CellValue.str "37183", CellValue.num 3],
           [CellValue.str "37063", CellValue.num 2]] "37063" :=
  ⟨List.Perm.swap _ _ _,
   C4_aggregation_order_independent 0 1 _ _ (List.Perm.swap _ _ _) "37063"⟩

/-! ## Update state-machine lemmas -/

/-- When the previously processed table deep-equals the incoming one, the
update short-circuits with no state change and no effect. -/
lemma performUpdate_suppressed (s : VisualState) (inp : UpdateInput)
    (t : DataTable) (h : inp.table? = some t)
    (hp : s.previousTableData = some t) :
    performUpdate s inp = (s, noEffects) := by
  unfold performUpdate
  rw [h]
  simp [hp]

/-- When the incoming table is fresh, the update records it, stores the
resolved metric, and runs the core. -/
lemma performUpdate_run (s : VisualState) (inp : UpdateInput) (t : DataTable)
    (h : inp.table? = some t) (hp : s.previousTableData ≠ some t) :
    performUpdate s inp
      = performCore
          { s with previousTableData := some t
                   selectedMetric := resolveMetric inp.selectedMetricObj }
          t inp.jsonFilters := by
  unfold performUpdate
  rw [h]
  simp [hp]

/-- The core never touches the recorded previous table. -/
lemma performCore_prev (s : VisualState) (t : DataTable)
    (f : List PBIFilter) :
    (performCore s t f).1.previousTableData = s.previousTableData := by
  unfold performCore fullPass
  dsimp only
  repeat' split
  all_goals rfl

/-- With all five role indices resolved and a non-empty row batch, the core
performs exactly one layer-mutation pass and schedules nothing. -/
lemma performCore_full_effects (s : VisualState) (t : DataTable)
    (f : List PBIFilter) (i ly lx lc lf : Nat)
    (hi : List.findIdx? (fun c => c.roleInterstate) t.columns = some i)
    (hy : List.findIdx? (fun c => c.roleY) t.columns = some ly)
    (hx : List.findIdx? (fun c => c.roleX) t.columns = some lx)
    (hw : List.findIdx? (fun c => c.roleCrashWeight) t.columns = some lc)
    (hfI : List.findIdx? (fun c => c.roleCountyFIPS) t.columns = some lf)
    (hrows : t.rows ≠ []) :
    (performCore s t f).2 = { noEffects with mutationPasses := 1 } := by
  unfold performCore
  dsimp only
  rw [hi, hy, hx, hw, hfI]
  dsimp only
  rw [if_neg hrows]
  rfl

/-! ## Selection-set membership lemmas -/

/-- Membership in the insertion-ordered set after one `Set.add`. -/
lemma mem_addToSet (s : List String) (x y : String) :
    y ∈ addToSet s x ↔ y ∈ s ∨ y = x := by
  unfold addToSet
  split
  · rename_i h
    constructor
    · exact Or.inl
    · rintro (hy | rfl)
      · exact hy
      · exact h
  · simp [List.mem_append]

/-- Membership in the row-fallback fold: an element is either already in
the accumulator or is the non-empty trimmed interstate text of some row. -/
lemma mem_rowFallback_foldl (idx : Nat) :
    ∀ (rows : List Row) (acc : List String) (x : String),
      x ∈ rows.foldl (rowFallbackAdd idx) acc ↔
        x ∈ acc ∨ ∃ r ∈ rows,
          jsTrim (cellToString (rowCell r idx)) = x ∧ x ≠ "" := by
  intro rows
  induction rows with
  | nil => intro acc x; simp
  | cons r rs ih =>
    intro acc x
    rw [List.foldl_cons, ih]
    unfold rowFallbackAdd
    dsimp only
    by_cases h : jsTrim (cellToString (rowCell r idx)) = ""
    · rw [if_pos h]
      simp only [List.mem_cons]
      constructor
      · rintro (hx | ⟨r1, hr1, hp⟩)
        · exact Or.inl hx
        · exact Or.inr ⟨r1, Or.inr hr1, hp⟩
      · rintro (hx | ⟨r1, rfl | hr1, hval, hne⟩)
        · exact Or.inl hx
        · exact absurd (hval.symm.trans h) hne
        · exact Or.inr ⟨r1, hr1, hval, hne⟩
    · rw [if_neg h, mem_addToSet]
      simp only [List.mem_cons]
      constructor
      · rintro ((hx | rfl) | ⟨r1, hr1, hp⟩)
        · exact Or.inl hx
        · exact Or.inr ⟨r, Or.inl rfl, rfl, h⟩
        · exact Or.inr ⟨r1, Or.inr hr1, hp⟩
      · rintro (hx | ⟨r1, rfl | hr1, hval, hne⟩)
        · exact Or.inl (Or.inl hx)
        · exact Or.inl (Or.inr hval.symm)
        · exact Or.inr ⟨r1, hr1, hval, hne⟩

/-! ## Remote-layer invariant lemmas -/

/-- A list of length at most one that owns a member is that singleton. -/
lemma eq_singleton_of_len_le_one {α : Type} {l : List α} {a : α}
    (hlen : l.length ≤ 1) (ha : a ∈ l) : l = [a] := by
  match l with
  | [] => simp at ha
  | [b] => rw [List.mem_singleton] at ha; rw [ha]
  | b :: c :: rest => simp at hlen

/-- The constructor establishes the remote-layer invariant. -/
lemma remoteInv_initial (countyFips : List String) :
    RemoteInv (initialState countyFips) :=
  ⟨rfl, by simp [initialState], by simp [initialState]⟩

/-- The layer-mutation pass preserves the remote-layer invariant. -/
lemma fullPass_remoteInv (s : VisualState) (rows : List Row)
    (sel : List String) (a b c d : Nat) (hInv : RemoteInv s) :
    RemoteInv (fullPass s rows sel a b c d).1 := by
  obtain ⟨hcount, hlen, hid⟩ := hInv
  unfold fullPass
  dsimp only
  cases hL : s.hccsLayer with
  | none =>
    dsimp only
    have hA : s.attachedRemote = [] := by
      cases hA : s.attachedRemote with
      | nil => rfl
      | cons j js =>
        exfalso
        have := hid j (by rw [hA]; exact List.mem_cons_self j js)
        rw [hL] at this
        exact Option.noConfusion this
    by_cases hAdd : s.hccsLayerAdded
    · rw [if_pos hAdd]
      refine ⟨by simpa [hAdd] using hcount, by simp [hA], by simp [hA]⟩
    · rw [if_neg hAdd]
      refine ⟨?_, by simp [hA], by simp [hA]⟩
      simp only [List.count_append]
      rw [hcount]
      simp [hAdd]
  | some id0 =>
    dsimp only
    by_cases hMem : id0 ∈ s.attachedRemote
    · rw [if_pos hMem]
      have hA : s.attachedRemote = [id0] := eq_singleton_of_len_le_one hlen hMem
      have hErase : s.attachedRemote.erase id0 = [] := by
        rw [hA]; simp
      by_cases hAdd : s.hccsLayerAdded
      · rw [if_pos hAdd]
        dsimp only
        rw [if_neg (by simp)]
        refine ⟨?_, by simp [hErase], by simp [hErase]⟩
        simp only [List.count_append]
        rfl
      · rw [if_neg hAdd]
        dsimp only
        rw [if_neg hAdd]
        refine ⟨?_, by simp [hErase], by simp [hErase]⟩
        simp only [List.count_append]
        rw [hcount]
        simp [hAdd]
    · rw [if_neg hMem]
      have hA : s.attachedRemote = [] := by
        cases hA : s.attachedRemote with
        | nil => rfl
        | cons j js =>
          exfalso
          have := hid j (by rw [hA]; exact List.mem_cons_self j js)
          rw [hL] at this
          apply hMem
          rw [hA, Option.some_inj.mp this]
          exact List.mem_cons_self j js
      by_cases hAdd : s.hccsLayerAdded
      · rw [if_pos hAdd]
        refine ⟨by simpa [hAdd] using hcount, by simp [hA], by simp [hA]⟩
      · rw [if_neg hAdd]
        refine ⟨?_, by simp [hA], by simp [hA]⟩
        simp only [List.count_append]
        rw [hcount]
        simp [hAdd]

/-- The core preserves the remote-layer invariant. -/
lemma performCore_remoteInv (s : VisualState) (t : DataTable)
    (f : List PBIFilter) (hInv : RemoteInv s) :
    RemoteInv (performCore s t f).1 := by
  unfold performCore
  dsimp only
  cases List.findIdx? (fun c => c.roleInterstate) t.columns with
  | none =>
    dsimp only
    by_cases hr : s.retryCount < 5
    · rw [if_pos hr]; exact hInv
    · rw [if_neg hr]; exact hInv
  | some i =>
    dsimp only
    split
    · split
      · exact hInv
      · exact fullPass_remoteInv _ _ _ _ _ _ _ hInv
    · exact hInv

/-- Every update invocation preserves the remote-layer invariant. -/
lemma performUpdate_remoteInv (s : VisualState) (inp : UpdateInput)
    (hInv : RemoteInv s) : RemoteInv (performUpdate s inp).1 := by
  unfold performUpdate
  cases inp.table? with
  | none => exact hInv
  | some t =>
    dsimp only
    by_cases hp : s.previousTableData = some t
    · rw [if_pos hp]; exact hInv
    · rw [if_neg hp]
      exact performCore_remoteInv _ _ _ hInv

/-! ## Metric-independence lemma -/

/-- The core's result does not depend on the stored `selectedMetric`: it
equals the result from the metric-scrubbed state, with the metric field
carried through untouched. -/
lemma performCore_metric (s : VisualState) (t : DataTable)
    (f : List PBIFilter) :
    performCore s t f
      = ({ (performCore { s with selectedMetric := "crashes" } t f).1 with
            selectedMetric := s.selectedMetric },
         (performCore { s with selectedMetric := "crashes" } t f).2) := by
  unfold performCore fullPass
  dsimp only
  repeat' split
  all_goals first | rfl | simp_all

/-- Prepending the empty string is the identity. -/
lemma empty_append_str (s : String) : String.mk [] ++ s = s := by
  cases s
  rfl

/-! ## C5 -/

/-- C5: change suppression — when a fresh table is processed by a complete
reconciliation cycle (all roles resolved, rows non-empty), the invocation
performs exactly one layer-mutation pass, and invoking the entry point again
with the deep-structurally-equal dataset short-circuits: the state is
untouched and no effect (no mutation pass, no retry, no log) occurs. -/
theorem C5_change_suppression (s : VisualState) (inp : UpdateInput)
    (t : DataTable)
    (ht : inp.table? = some t)
    (hprev : s.previousTableData ≠ some t)
    (hint : (List.findIdx? (fun c => c.roleInterstate) t.columns).isSome)
    (hy : (List.findIdx? (fun c => c.roleY) t.columns).isSome)
    (hx : (List.findIdx? (fun c => c.roleX) t.columns).isSome)
    (hw : (List.findIdx? (fun c => c.roleCrashWeight) t.columns).isSome)
    (hf : (List.findIdx? (fun c => c.roleCountyFIPS) t.columns).isSome)
    (hrows : t.rows ≠ []) :
    (performUpdate s inp).2.mutationPasses = 1
    ∧ performUpdate (performUpdate s inp).1 inp
        = ((performUpdate s inp).1, noEffects) := by
  obtain ⟨i, hi⟩ := Option.isSome_iff_exists.mp hint
  obtain ⟨ly, hly⟩ := Option.isSome_iff_exists.mp hy
  obtain ⟨lx, hlx⟩ := Option.isSome_iff_exists.mp hx
  obtain ⟨lc, hlc⟩ := Option.isSome_iff_exists.mp hw
  obtain ⟨lf, hlf⟩ := Option.isSome_iff_exists.mp hf
  rw [performUpdate_run s inp t ht hprev]
  constructor
  · rw [performCore_full_effects _ _ _ i ly lx lc lf hi hly hlx hlc hlf hrows]
  · apply performUpdate_suppressed _ _ t ht
    rw [performCore_prev]

/-- C5 witness: on the concrete five-role single-row table, the first
invocation from the initial state performs one mutation pass and the second
invocation with the identical dataset is a complete no-op. -/
theorem C5_change_suppression_witness :
    c5Input.table? = some c5Table
    ∧ (initialState ["37063"]).previousTableData ≠ some c5Table
    ∧ (List.findIdx? (fun c => c.roleInterstate) c5Table.columns).isSome
    ∧ (List.findIdx? (fun c => c.roleY) c5Table.columns).isSome
    ∧ (List.findIdx? (fun c => c.roleX) c5Table.columns).isSome
    ∧ (List.findIdx? (fun c => c.roleCrashWeight) c5Table.columns).isSome
    ∧ (List.findIdx? (fun c => c.roleCountyFIPS) c5Table.columns).isSome
    ∧ c5Table.rows ≠ []
    ∧ ((performUpdate (initialState ["37063"]) c5Input).2.mutationPasses = 1
       ∧ performUpdate (performUpdate (initialState ["37063"]) c5Input).1
            c5Input
          = ((performUpdate (initialState ["37063"]) c5Input).1,
             noEffects)) :=
  ⟨rfl, by decide, by decide, by decide, by decide, by decide, by decide,
   by decide,
   C5_change_suppression (initialState ["37063"]) c5Input c5Table rfl
     (by decide) (by decide) (by decide) (by decide) (by decide) (by decide)
     (by decide)⟩

/-! ## C6 -/

/-- C6 (code bug evidence): with the interstate role unassigned, the first
invocation schedules one 500 ms retry (counter 1, warning logged); but the
scheduled retry re-invokes `performUpdate` with the same captured options,
whose table now deep-equals `previousTableData` (recorded before the role
check), so the retry short-circuits with no effect: it neither re-checks
the role, nor schedules further retries, nor logs the exhaustion
diagnostic — the cycle dies after a single ineffective retry, never
reaching the documented 5. -/
theorem C6_retry_short_circuit :
    (performUpdate (initialState ["37063"]) c6Input).2.retryScheduled = true
    ∧ (performUpdate (initialState ["37063"]) c6Input).2.warnLogged = true
    ∧ (performUpdate (initialState ["37063"]) c6Input).1.retryCount = 1
    ∧ performUpdate (performUpdate (initialState ["37063"]) c6Input).1
        c6Input
      = ((performUpdate (initialState ["37063"]) c6Input).1, noEffects) := by
  decide

/-! ## C7 -/

/-- C7: category-selection sourcing precedence — when the host's basic
filters targeting the interstate column yield at least one value, the
selection is exactly that filter-sourced set; only when they yield nothing
is the selection populated by the distinct non-empty trimmed interstate
values of the current rows. -/
theorem C7_selection_precedence :
    ∀ (filters : List PBIFilter) (rows : List Row) (idx : Nat),
      (filtersInterstates filters ≠ [] →
        selectedInterstates filters rows (some idx)
          = filtersInterstates filters)
      ∧ (filtersInterstates filters = [] →
        ∀ x, x ∈ selectedInterstates filters rows (some idx) ↔
          ∃ r ∈ rows, jsTrim (cellToString (rowCell r idx)) = x ∧ x ≠ "") := by
  intro filters rows idx
  constructor
  · intro h
    unfold selectedInterstates
    dsimp only
    rw [if_neg h]
  · intro h x
    unfold selectedInterstates
    dsimp only
    rw [if_pos h, h, mem_rowFallback_foldl]
    simp

/-- C7 witness: a basic filter on column `"Interstate"` with one value wins
over a row batch containing a different interstate. -/
theorem C7_selection_precedence_witness :
    filtersInterstates
        [PBIFilter.basic ⟨[some "Interstate"], [CellValue.str "I-40 "]⟩] ≠ []
    ∧ selectedInterstates
        [PBIFilter.basic ⟨[some "Interstate"], [CellValue.str "I-40 "]⟩]
        [[CellValue.str "I-77"]] (some 0)
      = filtersInterstates
          [PBIFilter.basic ⟨[some "Interstate"], [CellValue.str "I-40 "]⟩] :=
  ⟨by decide, (C7_selection_precedence _ _ 0).1 (by decide)⟩

/-! ## C8 -/

/-- C8: remote-layer invariant — after any sequence of update invocations
from the freshly constructed state, the layer control carries at most one
`"High Crash Corridors"` overlay entry and at most one remote feature layer
is attached to the map. -/
theorem C8_remote_layer_invariant :
    ∀ (countyFips : List String) (inputs : List UpdateInput),
      (List.foldl (fun s i => (performUpdate s i).1)
          (initialState countyFips) inputs).overlayEntries.count
          "High Crash Corridors" ≤ 1
      ∧ (List.foldl (fun s i => (performUpdate s i).1)
          (initialState countyFips) inputs).attachedRemote.length ≤ 1 := by
  intro countyFips inputs
  have main : ∀ (l : List UpdateInput) (s : VisualState), RemoteInv s →
      RemoteInv (List.foldl (fun s i => (performUpdate s i).1) s l) := by
    intro l
    induction l with
    | nil => intro s hs; exact hs
    | cons i is ih =>
      intro s hs
      exact ih _ (performUpdate_remoteInv _ _ hs)
  obtain ⟨hc, hl, -⟩ := main inputs _ (remoteInv_initial countyFips)
  refine ⟨?_, hl⟩
  rw [hc]
  split <;> omega

/-! ## C9 -/

/-- C9 counterexample: a row with the numeric-coded key `1001` is
accumulated under the unpadded key `"1001"` — the zero-padded form
`"01001"`, which is the key the row's marker (and the bounds lookup)
carries, holds total `0`. -/
theorem C9_padding_counterexample :
    (buildMarkers
        [[CellValue.num 1001, CellValue.num 5, CellValue.num 35,
          CellValue.num (-79)]] 2 3 1 0).map Marker.fips = ["01001"]
    ∧ crashByFIPS 0 1
        [[CellValue.num 1001, CellValue.num 5, CellValue.num 35,
          CellValue.num (-79)]] "01001" = 0
    ∧ crashByFIPS 0 1
        [[CellValue.num 1001, CellValue.num 5, CellValue.num 35,
          CellValue.num (-79)]] "1001" = 5 := by decide

/-- C9 (amended): the aggregation key is the unpadded `String(key ?? "")`
while the marker/bounds key is its `padStart(5, "0")`; the two agree exactly
for rows whose stringified key already has at least 5 characters (all North
Carolina county FIPS codes). -/
theorem C9_key_agreement :
    ∀ (fipsIdx : Nat) (r : Row),
      5 ≤ (rowKey fipsIdx r).length →
      padStart5 (rowKey fipsIdx r) = rowKey fipsIdx r := by
  intro fi r h
  unfold padStart5
  rw [Nat.sub_eq_zero_of_le h, List.replicate_zero, empty_append_str]

/-- C9 witness: the five-character key `"37063"` is its own padded form. -/
theorem C9_key_agreement_witness :
    5 ≤ (rowKey 0 [CellValue.str "37063"]).length
    ∧ padStart5 (rowKey 0 [CellValue.str "37063"])
        = rowKey 0 [CellValue.str "37063"] :=
  ⟨by decide, C9_key_agreement 0 [CellValue.str "37063"] (by decide)⟩

/-! ## C10 -/

/-- C10: noninterference of the selected metric — two update invocations
whose inputs differ only in the `dataSelector.selectedMetric` configuration
value produce identical effects and identical states in every component
except the stored setting itself: same per-county fills, markers, compiled
where-predicate, overlay entries, attached remote layers, recorded table
and retry counter. -/
theorem C10_metric_noninterference :
    ∀ (s : VisualState) (inp : UpdateInput) (m1 m2 : Option String),
      (performUpdate s { inp with selectedMetricObj := m1 }).2
        = (performUpdate s { inp with selectedMetricObj := m2 }).2
      ∧ (performUpdate s { inp with selectedMetricObj := m1 }).1.countyFill
        = (performUpdate s { inp with selectedMetricObj := m2 }).1.countyFill
      ∧ (performUpdate s { inp with selectedMetricObj := m1 }).1.markers
        = (performUpdate s { inp with selectedMetricObj := m2 }).1.markers
      ∧ (performUpdate s { inp with selectedMetricObj := m1 }).1.hccsWhere
        = (performUpdate s { inp with selectedMetricObj := m2 }).1.hccsWhere
      ∧ (performUpdate s
            { inp with selectedMetricObj := m1 }).1.overlayEntries
        = (performUpdate s
            { inp with selectedMetricObj := m2 }).1.overlayEntries
      ∧ (performUpdate s
            { inp with selectedMetricObj := m1 }).1.attachedRemote
        = (performUpdate s
            { inp with selectedMetricObj := m2 }).1.attachedRemote
      ∧ (performUpdate s { inp with selectedMetricObj := m1 }).1.hccsLayer
        = (performUpdate s { inp with selectedMetricObj := m2 }).1.hccsLayer
      ∧ (performUpdate s
            { inp with selectedMetricObj := m1 }).1.hccsLayerAdded
        = (performUpdate s
            { inp with selectedMetricObj := m2 }).1.hccsLayerAdded
      ∧ (performUpdate s
            { inp with selectedMetricObj := m1 }).1.previousTableData
        = (performUpdate s
            { inp with selectedMetricObj := m2 }).1.previousTableData
      ∧ (performUpdate s { inp with selectedMetricObj := m1 }).1.retryCount
        = (performUpdate s
            { inp with selectedMetricObj := m2 }).1.retryCount := by
  intro s inp m1 m2
  unfold performUpdate
  dsimp only
  cases inp.table? with
  | none => exact ⟨rfl, rfl, rfl, rfl, rfl, rfl, rfl, rfl, rfl, rfl⟩
  | some t =>
    dsimp only
    by_cases hp : s.previousTableData = some t
    · simp [hp]
    · simp only [if_neg hp]
      have h1 := performCore_metric
        { s with previousTableData := some t
                 selectedMetric := resolveMetric m1 } t inp.jsonFilters
      have h2 := performCore_metric
        { s with previousTableData := some t
                 selectedMetric := resolveMetric m2 } t inp.jsonFilters
      rw [h1, h2]
      exact ⟨rfl, rfl, rfl, rfl, rfl, rfl, rfl, rfl, rfl, rfl⟩

end CrashMap
